import Mathlib

/-!
# Query status vocabulary and classifier of `query.go`

Shallow embedding of the status part of `query.go`:

* `QueryStatusFromServer` is the Go type `int`; it is embedded as `Int`, so
  every statement quantified over it covers every machine integer as well.
* A Go `map[K]V` built from a literal with pairwise distinct keys is embedded
  as the association list of the literal, in the order of the literal.  The
  two ways `query.go` reads a map are embedded once and for all:
  `goMapIndex` is `m[k]` (the zero value of `V` when `k` is absent) and
  `goMapCommaOk` is the second component of `_, exist := m[k]`.
* Go strings are embedded as `String`; the wire strings reach `strToSFQueryStatus`
  from decoded JSON text.
-/

namespace Gosnowflake

/-! ## Go map reads -/

/-- Go expression `m[k]`: the value stored under `k`, the zero value of the
value type when `k` is not a key of the map. -/
def goMapIndex {κ ν : Type} [BEq κ] (zero : ν) (m : List (κ × ν)) (k : κ) : ν :=
  match m.lookup k with
  | some v => v
  | none => zero

/-- Go statement `_, exist := m[k]`: whether `k` is a key of the map. -/
def goMapCommaOk {κ ν : Type} [BEq κ] (m : List (κ × ν)) (k : κ) : Bool :=
  match m.lookup k with
  | some _ => true
  | none => false

/-! ## `query.go`, lines 133-154: the status type and its constants -/

/-- Go `type QueryStatusFromServer int`. -/
abbrev QueryStatusFromServer : Type := Int

/-- Zero value of `QueryStatusFromServer` (the zero value of a Go `int`). -/
def zeroQueryStatusFromServer : QueryStatusFromServer := 0

/-- Constant `SFQueryRunning = iota`, the first of the block. -/
def SFQueryRunning : QueryStatusFromServer := 0
/-- Constant `SFQueryAborting`, iota 1. -/
def SFQueryAborting : QueryStatusFromServer := 1
/-- Constant `SFQuerySuccess`, iota 2. -/
def SFQuerySuccess : QueryStatusFromServer := 2
/-- Constant `SFQueryFailedWithError`, iota 3. -/
def SFQueryFailedWithError : QueryStatusFromServer := 3
/-- Constant `SFQueryAborted`, iota 4. -/
def SFQueryAborted : QueryStatusFromServer := 4
/-- Constant `SFQueryQueued`, iota 5. -/
def SFQueryQueued : QueryStatusFromServer := 5
/-- Constant `SFQueryFailedWithIncident`, iota 6. -/
def SFQueryFailedWithIncident : QueryStatusFromServer := 6
/-- Constant `SFQueryDisconnected`, iota 7. -/
def SFQueryDisconnected : QueryStatusFromServer := 7
/-- Constant `SFQueryResumingWarehouse`, iota 8. -/
def SFQueryResumingWarehouse : QueryStatusFromServer := 8
/-- Constant `SFQueryQueueRepairingWarehouse`, iota 9. -/
def SFQueryQueueRepairingWarehouse : QueryStatusFromServer := 9
/-- Constant `SFQueryRestarted`, iota 10. -/
def SFQueryRestarted : QueryStatusFromServer := 10
/-- Constant `SFQueryBlocked`, iota 11. -/
def SFQueryBlocked : QueryStatusFromServer := 11
/-- Constant `SFQueryNoData`, iota 12, the last of the block. -/
def SFQueryNoData : QueryStatusFromServer := 12

/-! ## `query.go`, lines 156-170: the three package-level maps -/

/-- Map literal `sfQueryStrStatusMap`, wire string to status code. -/
def sfQueryStrStatusMap : List (String × QueryStatusFromServer) :=
  [("RUNNING", SFQueryRunning), ("ABORTING", SFQueryAborting), ("SUCCESS", SFQuerySuccess),
   ("FAILED_WITH_ERROR", SFQueryFailedWithError), ("ABORTED", SFQueryAborted),
   ("QUEUED", SFQueryQueued),
   ("FAILED_WITH_INCIDENT", SFQueryFailedWithIncident), ("DISCONNECTED", SFQueryDisconnected),
   ("RESUMING_WAREHOUSE", SFQueryResumingWarehouse),
   ("QUEUED_REPAIRING_WAREHOUSE", SFQueryQueueRepairingWarehouse),
   ("RESTARTED", SFQueryRestarted), ("BLOCKED", SFQueryBlocked), ("NO_DATA", SFQueryNoData)]

/-- Value `dummy = struct{}{}`, the only inhabitant of the empty struct. -/
def dummy : Unit := ()

/-- Map literal `sfqueryStatusRunning`, used as a set of status codes. -/
def sfqueryStatusRunning : List (QueryStatusFromServer × Unit) :=
  [(SFQueryRunning, dummy), (SFQueryResumingWarehouse, dummy), (SFQueryQueued, dummy),
   (SFQueryQueueRepairingWarehouse, dummy), (SFQueryNoData, dummy)]

/-- Map literal `sfqueryStatusError`, used as a set of status codes. -/
def sfqueryStatusError : List (QueryStatusFromServer × Unit) :=
  [(SFQueryAborting, dummy), (SFQueryFailedWithError, dummy), (SFQueryAborted, dummy),
   (SFQueryFailedWithIncident, dummy), (SFQueryDisconnected, dummy), (SFQueryBlocked, dummy)]

/-! ## `query.go`, lines 187-199: the three functions -/

/-- Function `strToSFQueryStatus`: `return sfQueryStrStatusMap[in]`. -/
def strToSFQueryStatus (input : String) : QueryStatusFromServer :=
  goMapIndex zeroQueryStatusFromServer sfQueryStrStatusMap input

/-- Function `sfqStatusIsAnError`: `_, exist := sfqueryStatusError[status]`. -/
def sfqStatusIsAnError (status : QueryStatusFromServer) : Bool :=
  goMapCommaOk sfqueryStatusError status

/-- Function `sfqStatusIsStillRunning`: `_, exist := sfqueryStatusRunning[status]`. -/
def sfqStatusIsStillRunning (status : QueryStatusFromServer) : Bool :=
  goMapCommaOk sfqueryStatusRunning status

/-! ## Sanity of the map literals

A Go map literal with a repeated constant key does not compile; the three
association lists above indeed have pairwise distinct keys, so reading the
first binding of a key loses nothing. -/

theorem sfQueryStrStatusMap_keys_nodup : (sfQueryStrStatusMap.map Prod.fst).Nodup := by
  decide

theorem sfqueryStatusRunning_keys_nodup : (sfqueryStatusRunning.map Prod.fst).Nodup := by
  decide

theorem sfqueryStatusError_keys_nodup : (sfqueryStatusError.map Prod.fst).Nodup := by
  decide

/-! ## Reading an association list, one binding at a time -/

theorem goMapIndex_nil {κ ν : Type} [BEq κ] (zero : ν) (a : κ) :
    goMapIndex zero ([] : List (κ × ν)) a = zero := rfl

theorem goMapIndex_cons {κ ν : Type} [DecidableEq κ] (zero : ν) (k : κ) (v : ν)
    (m : List (κ × ν)) (a : κ) :
    goMapIndex zero ((k, v) :: m) a = if a = k then v else goMapIndex zero m a := by
  by_cases h : a = k
  · subst h
    simp [goMapIndex, List.lookup]
  · have hb : (a == k) = false := by simpa using h
    simp [goMapIndex, List.lookup, hb, h]

theorem goMapCommaOk_nil {κ ν : Type} [BEq κ] (a : κ) :
    goMapCommaOk ([] : List (κ × ν)) a = false := rfl

theorem goMapCommaOk_cons {κ ν : Type} [DecidableEq κ] (k : κ) (v : ν)
    (m : List (κ × ν)) (a : κ) :
    goMapCommaOk ((k, v) :: m) a = if a = k then true else goMapCommaOk m a := by
  by_cases h : a = k
  · subst h
    simp [goMapCommaOk, List.lookup]
  · have hb : (a == k) = false := by simpa using h
    simp [goMapCommaOk, List.lookup, hb, h]

/-- A key is read successfully exactly when it is among the keys of the literal. -/
theorem goMapCommaOk_iff_mem_keys {κ ν : Type} [DecidableEq κ] (m : List (κ × ν)) (a : κ) :
    goMapCommaOk m a = true ↔ a ∈ m.map Prod.fst := by
  induction m with
  | nil => simp [goMapCommaOk_nil]
  | cons p m ih =>
    obtain ⟨k, v⟩ := p
    rw [goMapCommaOk_cons]
    by_cases h : a = k
    · simp [h]
    · simp [h, ih]

/-- An absent key reads as the zero value. -/
theorem goMapIndex_of_not_mem_keys {κ ν : Type} [DecidableEq κ] (zero : ν)
    (m : List (κ × ν)) (a : κ) (h : a ∉ m.map Prod.fst) : goMapIndex zero m a = zero := by
  induction m with
  | nil => rfl
  | cons p m ih =>
    obtain ⟨k, v⟩ := p
    rw [goMapIndex_cons]
    simp only [List.map_cons, List.mem_cons, not_or] at h
    rw [if_neg h.1]
    exact ih h.2

/-! ## The three functions as decision chains -/

/-- Function `strToSFQueryStatus` compares its argument with the thirteen keys. -/
theorem strToSFQueryStatus_chain (s : String) :
    strToSFQueryStatus s =
      if s = "RUNNING" then 0 else if s = "ABORTING" then 1 else if s = "SUCCESS" then 2
      else if s = "FAILED_WITH_ERROR" then 3 else if s = "ABORTED" then 4
      else if s = "QUEUED" then 5 else if s = "FAILED_WITH_INCIDENT" then 6
      else if s = "DISCONNECTED" then 7 else if s = "RESUMING_WAREHOUSE" then 8
      else if s = "QUEUED_REPAIRING_WAREHOUSE" then 9 else if s = "RESTARTED" then 10
      else if s = "BLOCKED" then 11 else if s = "NO_DATA" then 12 else 0 := by
  simp only [strToSFQueryStatus, sfQueryStrStatusMap, goMapIndex_cons, goMapIndex_nil,
    zeroQueryStatusFromServer, SFQueryRunning, SFQueryAborting, SFQuerySuccess,
    SFQueryFailedWithError, SFQueryAborted, SFQueryQueued, SFQueryFailedWithIncident,
    SFQueryDisconnected, SFQueryResumingWarehouse, SFQueryQueueRepairingWarehouse,
    SFQueryRestarted, SFQueryBlocked, SFQueryNoData]

/-- Function `sfqStatusIsStillRunning` compares its argument with the five keys. -/
theorem sfqStatusIsStillRunning_chain (c : Int) :
    sfqStatusIsStillRunning c =
      if c = 0 then true else if c = 8 then true else if c = 5 then true
      else if c = 9 then true else if c = 12 then true else false := by
  simp only [sfqStatusIsStillRunning, sfqueryStatusRunning, goMapCommaOk_cons,
    goMapCommaOk_nil, SFQueryRunning, SFQueryResumingWarehouse, SFQueryQueued,
    SFQueryQueueRepairingWarehouse, SFQueryNoData]

/-- Function `sfqStatusIsAnError` compares its argument with the six keys. -/
theorem sfqStatusIsAnError_chain (c : Int) :
    sfqStatusIsAnError c =
      if c = 1 then true else if c = 3 then true else if c = 4 then true
      else if c = 6 then true else if c = 7 then true else if c = 11 then true
      else false := by
  simp only [sfqStatusIsAnError, sfqueryStatusError, goMapCommaOk_cons,
    goMapCommaOk_nil, SFQueryAborting, SFQueryFailedWithError, SFQueryAborted,
    SFQueryFailedWithIncident, SFQueryDisconnected, SFQueryBlocked]

theorem sfqStatusIsStillRunning_eq_true_iff (c : Int) :
    sfqStatusIsStillRunning c = true ↔ c = 0 ∨ c = 8 ∨ c = 5 ∨ c = 9 ∨ c = 12 := by
  rw [sfqStatusIsStillRunning_chain]
  split_ifs <;> simp <;> omega

theorem sfqStatusIsAnError_eq_true_iff (c : Int) :
    sfqStatusIsAnError c = true ↔ c = 1 ∨ c = 3 ∨ c = 4 ∨ c = 6 ∨ c = 7 ∨ c = 11 := by
  rw [sfqStatusIsAnError_chain]
  split_ifs <;> simp <;> omega

/-- The keys of `sfQueryStrStatusMap` are the thirteen wire strings, in the order of the
literal. -/
theorem sfQueryStrStatusMap_keys :
    sfQueryStrStatusMap.map Prod.fst =
      ["RUNNING", "ABORTING", "SUCCESS", "FAILED_WITH_ERROR", "ABORTED", "QUEUED",
        "FAILED_WITH_INCIDENT", "DISCONNECTED", "RESUMING_WAREHOUSE",
        "QUEUED_REPAIRING_WAREHOUSE", "RESTARTED", "BLOCKED", "NO_DATA"] := rfl

/-- A string outside the thirteen wire strings reads as the zero value. -/
theorem strToSFQueryStatus_of_not_mem (s : String)
    (h : s ∉ ["RUNNING", "ABORTING", "SUCCESS", "FAILED_WITH_ERROR", "ABORTED", "QUEUED",
        "FAILED_WITH_INCIDENT", "DISCONNECTED", "RESUMING_WAREHOUSE",
        "QUEUED_REPAIRING_WAREHOUSE", "RESTARTED", "BLOCKED", "NO_DATA"]) :
    strToSFQueryStatus s = 0 := by
  rw [← sfQueryStrStatusMap_keys] at h
  exact goMapIndex_of_not_mem_keys zeroQueryStatusFromServer sfQueryStrStatusMap s h

/-- On the thirteen wire strings `strToSFQueryStatus` is injective. -/
theorem strToSFQueryStatus_inj_of_mem (s t : String)
    (hs : s ∈ ["RUNNING", "ABORTING", "SUCCESS", "FAILED_WITH_ERROR", "ABORTED", "QUEUED",
        "FAILED_WITH_INCIDENT", "DISCONNECTED", "RESUMING_WAREHOUSE",
        "QUEUED_REPAIRING_WAREHOUSE", "RESTARTED", "BLOCKED", "NO_DATA"])
    (ht : t ∈ ["RUNNING", "ABORTING", "SUCCESS", "FAILED_WITH_ERROR", "ABORTED", "QUEUED",
        "FAILED_WITH_INCIDENT", "DISCONNECTED", "RESUMING_WAREHOUSE",
        "QUEUED_REPAIRING_WAREHOUSE", "RESTARTED", "BLOCKED", "NO_DATA"])
    (h : strToSFQueryStatus s = strToSFQueryStatus t) : s = t := by
  simp only [List.mem_cons, List.mem_singleton, List.not_mem_nil, or_false] at hs ht
  rcases hs with rfl | rfl | rfl | rfl | rfl | rfl | rfl | rfl | rfl | rfl | rfl | rfl | rfl <;>
    rcases ht with rfl | rfl | rfl | rfl | rfl | rfl | rfl | rfl | rfl | rfl | rfl | rfl | rfl <;>
    first
      | rfl
      | exact absurd h (by decide)

/-! ## The claims -/

/-- C1: `strToSFQueryStatus` sends each of the thirteen wire strings to its status code,
and on these thirteen strings it is a bijection onto the thirteen codes: it maps the
strings into the codes, two different strings never get the same code, and every code is
the image of one of the strings. -/
theorem C1_strToSFQueryStatus_vocabulary_bijection :
    (strToSFQueryStatus "RUNNING" = SFQueryRunning ∧
      strToSFQueryStatus "ABORTING" = SFQueryAborting ∧
      strToSFQueryStatus "SUCCESS" = SFQuerySuccess ∧
      strToSFQueryStatus "FAILED_WITH_ERROR" = SFQueryFailedWithError ∧
      strToSFQueryStatus "ABORTED" = SFQueryAborted ∧
      strToSFQueryStatus "QUEUED" = SFQueryQueued ∧
      strToSFQueryStatus "FAILED_WITH_INCIDENT" = SFQueryFailedWithIncident ∧
      strToSFQueryStatus "DISCONNECTED" = SFQueryDisconnected ∧
      strToSFQueryStatus "RESUMING_WAREHOUSE" = SFQueryResumingWarehouse ∧
      strToSFQueryStatus "QUEUED_REPAIRING_WAREHOUSE" = SFQueryQueueRepairingWarehouse ∧
      strToSFQueryStatus "RESTARTED" = SFQueryRestarted ∧
      strToSFQueryStatus "BLOCKED" = SFQueryBlocked ∧
      strToSFQueryStatus "NO_DATA" = SFQueryNoData) ∧
    (∀ s ∈ ["RUNNING", "ABORTING", "SUCCESS", "FAILED_WITH_ERROR", "ABORTED", "QUEUED",
        "FAILED_WITH_INCIDENT", "DISCONNECTED", "RESUMING_WAREHOUSE",
        "QUEUED_REPAIRING_WAREHOUSE", "RESTARTED", "BLOCKED", "NO_DATA"],
      strToSFQueryStatus s ∈ [SFQueryRunning, SFQueryAborting, SFQuerySuccess, SFQueryFailedWithError,
        SFQueryAborted, SFQueryQueued, SFQueryFailedWithIncident, SFQueryDisconnected,
        SFQueryResumingWarehouse, SFQueryQueueRepairingWarehouse, SFQueryRestarted,
        SFQueryBlocked, SFQueryNoData]) ∧
    (∀ s ∈ ["RUNNING", "ABORTING", "SUCCESS", "FAILED_WITH_ERROR", "ABORTED", "QUEUED",
        "FAILED_WITH_INCIDENT", "DISCONNECTED", "RESUMING_WAREHOUSE",
        "QUEUED_REPAIRING_WAREHOUSE", "RESTARTED", "BLOCKED", "NO_DATA"],
      ∀ t ∈ ["RUNNING", "ABORTING", "SUCCESS", "FAILED_WITH_ERROR", "ABORTED", "QUEUED",
        "FAILED_WITH_INCIDENT", "DISCONNECTED", "RESUMING_WAREHOUSE",
        "QUEUED_REPAIRING_WAREHOUSE", "RESTARTED", "BLOCKED", "NO_DATA"],
      strToSFQueryStatus s = strToSFQueryStatus t → s = t) ∧
    (∀ c ∈ [SFQueryRunning, SFQueryAborting, SFQuerySuccess, SFQueryFailedWithError,
        SFQueryAborted, SFQueryQueued, SFQueryFailedWithIncident, SFQueryDisconnected,
        SFQueryResumingWarehouse, SFQueryQueueRepairingWarehouse, SFQueryRestarted,
        SFQueryBlocked, SFQueryNoData],
      ∃ s ∈ ["RUNNING", "ABORTING", "SUCCESS", "FAILED_WITH_ERROR", "ABORTED", "QUEUED",
        "FAILED_WITH_INCIDENT", "DISCONNECTED", "RESUMING_WAREHOUSE",
        "QUEUED_REPAIRING_WAREHOUSE", "RESTARTED", "BLOCKED", "NO_DATA"],
      strToSFQueryStatus s = c) ∧
    [SFQueryRunning, SFQueryAborting, SFQuerySuccess, SFQueryFailedWithError,
        SFQueryAborted, SFQueryQueued, SFQueryFailedWithIncident, SFQueryDisconnected,
        SFQueryResumingWarehouse, SFQueryQueueRepairingWarehouse, SFQueryRestarted,
        SFQueryBlocked, SFQueryNoData].Nodup := by
  refine ⟨by decide, ?_, ?_, ?_, by decide⟩
  · intro s hs
    simp only [List.mem_cons, List.mem_singleton, List.not_mem_nil, or_false] at hs
    rcases hs with rfl | rfl | rfl | rfl | rfl | rfl | rfl | rfl | rfl | rfl | rfl | rfl | rfl <;>
      decide
  · intro s hs t ht h
    exact strToSFQueryStatus_inj_of_mem s t hs ht h
  · intro c hc
    simp only [List.mem_cons, List.mem_singleton, List.not_mem_nil, or_false] at hc
    rcases hc with rfl | rfl | rfl | rfl | rfl | rfl | rfl | rfl | rfl | rfl | rfl | rfl | rfl
    · exact ⟨"RUNNING", by decide, by decide⟩
    · exact ⟨"ABORTING", by decide, by decide⟩
    · exact ⟨"SUCCESS", by decide, by decide⟩
    · exact ⟨"FAILED_WITH_ERROR", by decide, by decide⟩
    · exact ⟨"ABORTED", by decide, by decide⟩
    · exact ⟨"QUEUED", by decide, by decide⟩
    · exact ⟨"FAILED_WITH_INCIDENT", by decide, by decide⟩
    · exact ⟨"DISCONNECTED", by decide, by decide⟩
    · exact ⟨"RESUMING_WAREHOUSE", by decide, by decide⟩
    · exact ⟨"QUEUED_REPAIRING_WAREHOUSE", by decide, by decide⟩
    · exact ⟨"RESTARTED", by decide, by decide⟩
    · exact ⟨"BLOCKED", by decide, by decide⟩
    · exact ⟨"NO_DATA", by decide, by decide⟩

/-- C2: `strToSFQueryStatus` is a total function, and for every string that is not one of
the thirteen wire strings it returns `SFQueryRunning`, which is the zero value of the
status type. -/
theorem C2_strToSFQueryStatus_unknown_is_running (s : String)
    (h : s ∉ ["RUNNING", "ABORTING", "SUCCESS", "FAILED_WITH_ERROR", "ABORTED", "QUEUED",
        "FAILED_WITH_INCIDENT", "DISCONNECTED", "RESUMING_WAREHOUSE",
        "QUEUED_REPAIRING_WAREHOUSE", "RESTARTED", "BLOCKED", "NO_DATA"]) :
    strToSFQueryStatus s = SFQueryRunning ∧ SFQueryRunning = zeroQueryStatusFromServer := by
  exact ⟨strToSFQueryStatus_of_not_mem s h, rfl⟩

/-- Witness of C2 at the empty string, at a lower-case and at a mixed-case variant of a
wire string. -/
theorem C2_strToSFQueryStatus_unknown_is_running_witness :
    strToSFQueryStatus "" = SFQueryRunning ∧
    strToSFQueryStatus "success" = SFQueryRunning ∧
    strToSFQueryStatus "Success" = SFQueryRunning :=
  ⟨(C2_strToSFQueryStatus_unknown_is_running "" (by decide)).1,
   (C2_strToSFQueryStatus_unknown_is_running "success" (by decide)).1,
   (C2_strToSFQueryStatus_unknown_is_running "Success" (by decide)).1⟩

/-- C3: for every status value, every integer included, `sfqStatusIsAnError` and
`sfqStatusIsStillRunning` are never both true, and the key sets of `sfqueryStatusRunning`
and `sfqueryStatusError` are disjoint. -/
theorem C3_error_and_running_disjoint (status : QueryStatusFromServer) :
    ¬ (sfqStatusIsAnError status = true ∧ sfqStatusIsStillRunning status = true) ∧
    List.Disjoint (sfqueryStatusRunning.map Prod.fst) (sfqueryStatusError.map Prod.fst) := by
  have key : ∀ c : Int, ¬ (sfqStatusIsAnError c = true ∧ sfqStatusIsStillRunning c = true) := by
    intro c hc
    have he := (sfqStatusIsAnError_eq_true_iff c).1 hc.1
    have hr := (sfqStatusIsStillRunning_eq_true_iff c).1 hc.2
    omega
  refine ⟨key status, ?_⟩
  intro c hr he
  exact key c ⟨(goMapCommaOk_iff_mem_keys sfqueryStatusError c).2 he,
    (goMapCommaOk_iff_mem_keys sfqueryStatusRunning c).2 hr⟩

/-- C4: `sfqStatusIsStillRunning status` is true exactly when `status` is one of
`SFQueryRunning`, `SFQueryResumingWarehouse`, `SFQueryQueued`,
`SFQueryQueueRepairingWarehouse`, `SFQueryNoData`, and false for every other value. -/
theorem C4_sfqStatusIsStillRunning_iff (status : QueryStatusFromServer) :
    (sfqStatusIsStillRunning status = true ↔
      status = SFQueryRunning ∨ status = SFQueryResumingWarehouse ∨ status = SFQueryQueued ∨
        status = SFQueryQueueRepairingWarehouse ∨ status = SFQueryNoData) ∧
    (sfqStatusIsStillRunning status = false ↔
      status ≠ SFQueryRunning ∧ status ≠ SFQueryResumingWarehouse ∧ status ≠ SFQueryQueued ∧
        status ≠ SFQueryQueueRepairingWarehouse ∧ status ≠ SFQueryNoData) := by
  have key : ∀ c : Int, sfqStatusIsStillRunning c = false ↔
      c ≠ 0 ∧ c ≠ 8 ∧ c ≠ 5 ∧ c ≠ 9 ∧ c ≠ 12 := by
    intro c
    rw [← Bool.not_eq_true, sfqStatusIsStillRunning_eq_true_iff]
    omega
  exact ⟨sfqStatusIsStillRunning_eq_true_iff status, key status⟩

/-- C5: `sfqStatusIsAnError status` is true exactly when `status` is one of
`SFQueryAborting`, `SFQueryFailedWithError`, `SFQueryAborted`, `SFQueryFailedWithIncident`,
`SFQueryDisconnected`, `SFQueryBlocked`, and false for every other value. -/
theorem C5_sfqStatusIsAnError_iff (status : QueryStatusFromServer) :
    (sfqStatusIsAnError status = true ↔
      status = SFQueryAborting ∨ status = SFQueryFailedWithError ∨ status = SFQueryAborted ∨
        status = SFQueryFailedWithIncident ∨ status = SFQueryDisconnected ∨
        status = SFQueryBlocked) ∧
    (sfqStatusIsAnError status = false ↔
      status ≠ SFQueryAborting ∧ status ≠ SFQueryFailedWithError ∧ status ≠ SFQueryAborted ∧
        status ≠ SFQueryFailedWithIncident ∧ status ≠ SFQueryDisconnected ∧
        status ≠ SFQueryBlocked) := by
  have key : ∀ c : Int, sfqStatusIsAnError c = false ↔
      c ≠ 1 ∧ c ≠ 3 ∧ c ≠ 4 ∧ c ≠ 6 ∧ c ≠ 7 ∧ c ≠ 11 := by
    intro c
    rw [← Bool.not_eq_true, sfqStatusIsAnError_eq_true_iff]
    omega
  exact ⟨sfqStatusIsAnError_eq_true_iff status, key status⟩

/-- C6: both `sfqStatusIsAnError` and `sfqStatusIsStillRunning` return false for
`SFQuerySuccess`, for `SFQueryRestarted`, and for every value that is not one of the
thirteen named members, that is every negative integer and every integer greater than
`SFQueryNoData`. -/
theorem C6_neither_for_success_restarted_unnamed (status : QueryStatusFromServer)
    (h : status = SFQuerySuccess ∨ status = SFQueryRestarted ∨ status < SFQueryRunning ∨
      SFQueryNoData < status) :
    sfqStatusIsAnError status = false ∧ sfqStatusIsStillRunning status = false := by
  have key : ∀ c : Int, (c = 2 ∨ c = 10 ∨ c < 0 ∨ 12 < c) →
      sfqStatusIsAnError c = false ∧ sfqStatusIsStillRunning c = false := by
    intro c hc
    rw [← Bool.not_eq_true, ← Bool.not_eq_true, sfqStatusIsAnError_eq_true_iff,
      sfqStatusIsStillRunning_eq_true_iff]
    omega
  exact key status h

/-- Witness of C6 at `SFQuerySuccess`, at `SFQueryRestarted`, at a negative value and at
the first value above `SFQueryNoData`. -/
theorem C6_neither_for_success_restarted_unnamed_witness :
    (sfqStatusIsAnError SFQuerySuccess = false ∧
      sfqStatusIsStillRunning SFQuerySuccess = false) ∧
    (sfqStatusIsAnError SFQueryRestarted = false ∧
      sfqStatusIsStillRunning SFQueryRestarted = false) ∧
    (sfqStatusIsAnError (-1) = false ∧ sfqStatusIsStillRunning (-1) = false) ∧
    (sfqStatusIsAnError 13 = false ∧ sfqStatusIsStillRunning 13 = false) :=
  ⟨C6_neither_for_success_restarted_unnamed SFQuerySuccess (Or.inl rfl),
   C6_neither_for_success_restarted_unnamed SFQueryRestarted (Or.inr (Or.inl rfl)),
   C6_neither_for_success_restarted_unnamed (-1) (Or.inr (Or.inr (Or.inl (by decide)))),
   C6_neither_for_success_restarted_unnamed 13 (Or.inr (Or.inr (Or.inr (by decide))))⟩

/-- C7: for every wire string `s`, `sfqStatusIsStillRunning (strToSFQueryStatus s)` is
true exactly when `s` is one of "RUNNING", "RESUMING_WAREHOUSE", "QUEUED",
"QUEUED_REPAIRING_WAREHOUSE", "NO_DATA" or `s` is not one of the thirteen wire strings; the
unrecognised status "SOME_NEW_STATE" is classified as still running and not as an
error. -/
theorem C7_still_running_of_wire_string (s : String) :
    (sfqStatusIsStillRunning (strToSFQueryStatus s) = true ↔
      (s = "RUNNING" ∨ s = "RESUMING_WAREHOUSE" ∨ s = "QUEUED" ∨
        s = "QUEUED_REPAIRING_WAREHOUSE" ∨ s = "NO_DATA") ∨
      s ∉ ["RUNNING", "ABORTING", "SUCCESS", "FAILED_WITH_ERROR", "ABORTED", "QUEUED",
        "FAILED_WITH_INCIDENT", "DISCONNECTED", "RESUMING_WAREHOUSE",
        "QUEUED_REPAIRING_WAREHOUSE", "RESTARTED", "BLOCKED", "NO_DATA"]) ∧
    "SOME_NEW_STATE" ∉ ["RUNNING", "ABORTING", "SUCCESS", "FAILED_WITH_ERROR", "ABORTED", "QUEUED",
        "FAILED_WITH_INCIDENT", "DISCONNECTED", "RESUMING_WAREHOUSE",
        "QUEUED_REPAIRING_WAREHOUSE", "RESTARTED", "BLOCKED", "NO_DATA"] ∧
    sfqStatusIsStillRunning (strToSFQueryStatus "SOME_NEW_STATE") = true ∧
    sfqStatusIsAnError (strToSFQueryStatus "SOME_NEW_STATE") = false := by
  refine ⟨?_, by decide, by decide, by decide⟩
  by_cases hk : s ∈ ["RUNNING", "ABORTING", "SUCCESS", "FAILED_WITH_ERROR", "ABORTED", "QUEUED",
        "FAILED_WITH_INCIDENT", "DISCONNECTED", "RESUMING_WAREHOUSE",
        "QUEUED_REPAIRING_WAREHOUSE", "RESTARTED", "BLOCKED", "NO_DATA"]
  · have hk2 := hk
    simp only [List.mem_cons, List.mem_singleton, List.not_mem_nil, or_false] at hk2
    rcases hk2 with rfl | rfl | rfl | rfl | rfl | rfl | rfl | rfl | rfl | rfl | rfl | rfl | rfl <;>
      decide
  · rw [strToSFQueryStatus_of_not_mem s hk]
    exact ⟨fun _ => Or.inr hk, fun _ => by decide⟩

/-- C8: for every wire string `s`, `sfqStatusIsAnError (strToSFQueryStatus s)` is true
exactly when `s` is one of "ABORTING", "FAILED_WITH_ERROR", "ABORTED",
"FAILED_WITH_INCIDENT", "DISCONNECTED", "BLOCKED"; the status "FAILED_WITH_ERROR" is
classified as an error and not as still running. -/
theorem C8_error_of_wire_string (s : String) :
    (sfqStatusIsAnError (strToSFQueryStatus s) = true ↔
      s = "ABORTING" ∨ s = "FAILED_WITH_ERROR" ∨ s = "ABORTED" ∨
        s = "FAILED_WITH_INCIDENT" ∨ s = "DISCONNECTED" ∨ s = "BLOCKED") ∧
    sfqStatusIsAnError (strToSFQueryStatus "FAILED_WITH_ERROR") = true ∧
    sfqStatusIsStillRunning (strToSFQueryStatus "FAILED_WITH_ERROR") = false := by
  refine ⟨?_, by decide, by decide⟩
  by_cases hk : s ∈ ["RUNNING", "ABORTING", "SUCCESS", "FAILED_WITH_ERROR", "ABORTED", "QUEUED",
        "FAILED_WITH_INCIDENT", "DISCONNECTED", "RESUMING_WAREHOUSE",
        "QUEUED_REPAIRING_WAREHOUSE", "RESTARTED", "BLOCKED", "NO_DATA"]
  · have hk2 := hk
    simp only [List.mem_cons, List.mem_singleton, List.not_mem_nil, or_false] at hk2
    rcases hk2 with rfl | rfl | rfl | rfl | rfl | rfl | rfl | rfl | rfl | rfl | rfl | rfl | rfl <;>
      decide
  · rw [strToSFQueryStatus_of_not_mem s hk]
    constructor
    · intro h
      exact absurd h (by decide)
    · intro h
      exfalso
      apply hk
      simp only [List.mem_cons, List.mem_singleton, List.not_mem_nil, or_false]
      rcases h with h | h | h | h | h | h <;> simp [h]

/-- C10: a status code other than `SFQueryRunning` identifies its wire string uniquely
over all strings, whereas `strToSFQueryStatus s = SFQueryRunning` holds exactly when `s`
is "RUNNING" or `s` is not one of the thirteen wire strings, so every unrecognised string
gets the very code of a genuine "RUNNING" report. -/
theorem C10_code_identifies_string_except_running (s t : String) :
    (strToSFQueryStatus s = strToSFQueryStatus t →
      strToSFQueryStatus s ≠ SFQueryRunning → s = t) ∧
    (strToSFQueryStatus s = SFQueryRunning ↔
      s = "RUNNING" ∨
      s ∉ ["RUNNING", "ABORTING", "SUCCESS", "FAILED_WITH_ERROR", "ABORTED", "QUEUED",
        "FAILED_WITH_INCIDENT", "DISCONNECTED", "RESUMING_WAREHOUSE",
        "QUEUED_REPAIRING_WAREHOUSE", "RESTARTED", "BLOCKED", "NO_DATA"]) ∧
    (t ∉ ["RUNNING", "ABORTING", "SUCCESS", "FAILED_WITH_ERROR", "ABORTED", "QUEUED",
        "FAILED_WITH_INCIDENT", "DISCONNECTED", "RESUMING_WAREHOUSE",
        "QUEUED_REPAIRING_WAREHOUSE", "RESTARTED", "BLOCKED", "NO_DATA"] →
      strToSFQueryStatus t = strToSFQueryStatus "RUNNING") := by
  refine ⟨?_, ?_, ?_⟩
  · intro h hne
    by_cases hs : s ∈ ["RUNNING", "ABORTING", "SUCCESS", "FAILED_WITH_ERROR", "ABORTED", "QUEUED",
        "FAILED_WITH_INCIDENT", "DISCONNECTED", "RESUMING_WAREHOUSE",
        "QUEUED_REPAIRING_WAREHOUSE", "RESTARTED", "BLOCKED", "NO_DATA"]
    · by_cases ht : t ∈ ["RUNNING", "ABORTING", "SUCCESS", "FAILED_WITH_ERROR", "ABORTED", "QUEUED",
        "FAILED_WITH_INCIDENT", "DISCONNECTED", "RESUMING_WAREHOUSE",
        "QUEUED_REPAIRING_WAREHOUSE", "RESTARTED", "BLOCKED", "NO_DATA"]
      · exact strToSFQueryStatus_inj_of_mem s t hs ht h
      · exact absurd (h.trans (strToSFQueryStatus_of_not_mem t ht)) hne
    · exact absurd (strToSFQueryStatus_of_not_mem s hs) hne
  · by_cases hk : s ∈ ["RUNNING", "ABORTING", "SUCCESS", "FAILED_WITH_ERROR", "ABORTED", "QUEUED",
        "FAILED_WITH_INCIDENT", "DISCONNECTED", "RESUMING_WAREHOUSE",
        "QUEUED_REPAIRING_WAREHOUSE", "RESTARTED", "BLOCKED", "NO_DATA"]
    · have hk2 := hk
      simp only [List.mem_cons, List.mem_singleton, List.not_mem_nil, or_false] at hk2
      rcases hk2 with rfl | rfl | rfl | rfl | rfl | rfl | rfl | rfl | rfl | rfl | rfl | rfl | rfl <;>
        decide
    · exact ⟨fun _ => Or.inr hk, fun _ => strToSFQueryStatus_of_not_mem s hk⟩
  · intro ht
    exact strToSFQueryStatus_of_not_mem t ht

end Gosnowflake
